import Mathlib

/-!
Verification of the adaptive user-context engine of the CuantoCuesta backend
(`app/services/conversation_service.py` and `app/models/contextual_anchor.py`).

The Python code is shallowly embedded: Python floats are modelled as `ℚ`
(or `ℝ` where the source applies transcendental functions such as `math.exp`
or the trigonometry inside the haversine distance), mutable objects are
modelled by explicit state passing, and fallible code returns `Except`.
-/

namespace CuantoCuesta

/-! ### Python builtins on numbers

`max`, `min` and `abs` as Python evaluates them on two floats (ties keep
the first argument), written with `if` so that concrete rational
evaluations reduce in the kernel. -/

/-- Python's builtin `max(a, b)`. -/
def pyMax (a b : ℚ) : ℚ := if a < b then b else a

/-- Python's builtin `min(a, b)`. -/
def pyMin (a b : ℚ) : ℚ := if b < a then b else a

/-- Python's builtin `abs(a)`. -/
def pyAbs (a : ℚ) : ℚ := if a < 0 then -a else a

/-! ## LocationHasher (`conversation_service.py`, lines 169-212)

`_generate_region_code` assigns a coarse region label from fixed bounding
boxes on the (lat, lng) plane. -/

/-- Embedding of `LocationHasher._generate_region_code` (lines 201-212):
four chained comparisons on the rounded coordinates, returning a region
label. -/
def generateRegionCode (lat lng : ℚ) : String :=
  if -33.7 ≤ lat ∧ lat ≤ -33.2 ∧ -70.9 ≤ lng ∧ lng ≤ -70.4 then
    "RM_CENTRO"
  else if -33.5 ≤ lat ∧ lat ≤ -33.2 ∧ -70.7 ≤ lng ∧ lng ≤ -70.4 then
    "RM_ORIENTE"
  else if -33.0 ≤ lat ∧ lat ≤ -32.5 ∧ -71.8 ≤ lng ∧ lng ≤ -71.2 then
    "VAL_CENTRO"
  else
    "OTHER"

/-! ## DriftDetector: CUSUM (`conversation_service.py`, lines 215-262)

`DriftDetector.__init__` zero-initialises five instance accumulators;
`cusum_test` reads and writes `cusum_positive` / `cusum_negative` on the
instance.  The mutation is modelled by threading a `DriftDetectorState`. -/

/-- The mutable instance state set up by `DriftDetector.__init__`
(lines 220-225).  The two CUSUM accumulators persist across calls; the
three Page-Hinkley fields are initialised but never read by the methods. -/
structure DriftDetectorState where
  cusum_positive : ℚ
  cusum_negative : ℚ
  page_hinkley_cumsum : ℚ
  page_hinkley_min : ℚ
  page_hinkley_max : ℚ
deriving Repr, DecidableEq

/-- `DriftDetector()`: a freshly constructed detector, all accumulators 0. -/
def driftDetectorInit : DriftDetectorState :=
  ⟨0, 0, 0, 0, 0⟩

/-- `decision_encoding.get(d, 2)` (line 232): ahorro ↦ 1, equilibrio ↦ 2,
conveniencia ↦ 3, anything else ↦ the dict-lookup default 2. -/
def decisionEncoding (d : String) : ℚ :=
  if d = "ahorro" then 1
  else if d = "equilibrio" then 2
  else if d = "conveniencia" then 3
  else 2

/-- Return value of `cusum_test`: the early `no_historical_data` dictionary
(line 235) or the full result dictionary (lines 257-262). -/
inductive CusumOutcome
  /-- `{"change_detected": False, "reason": "no_historical_data"}` -/
  | noHistoricalData
  /-- `{"change_detected": _, "magnitude": _, "direction": _, "confidence": _}` -/
  | tested (change_detected : Bool) (magnitude : ℚ) (direction : String)
      (confidence : ℚ)
deriving Repr, DecidableEq

/-- Embedding of `DriftDetector.cusum_test` (lines 227-262).  The instance
mutation of `self.cusum_positive` / `self.cusum_negative` is returned as the
first component; the Python default argument is `sensitivity=0.5`. -/
def cusumTest (st : DriftDetectorState) (historical_decisions : List String)
    (new_decision : String) (sensitivity : ℚ := 0.5) :
    DriftDetectorState × CusumOutcome :=
  if historical_decisions = [] then
    (st, .noHistoricalData)
  else
    let historical_values := historical_decisions.map decisionEncoding
    let historical_mean := historical_values.sum / historical_values.length
    let target_shift := sensitivity
    let decision_limit : ℚ := 3.0
    let new_value := decisionEncoding new_decision
    let deviation := new_value - historical_mean
    let cusum_positive := pyMax 0 (st.cusum_positive + deviation - target_shift / 2)
    let cusum_negative := pyMax 0 (st.cusum_negative - deviation - target_shift / 2)
    let change_detected : Bool :=
      decide (cusum_positive > decision_limit) ||
        decide (cusum_negative > decision_limit)
    ({ st with cusum_positive := cusum_positive, cusum_negative := cusum_negative },
     .tested change_detected (pyMax cusum_positive cusum_negative)
       (if cusum_positive > cusum_negative then "increase" else "decrease")
       (pyMin 1.0 (pyMax cusum_positive cusum_negative / decision_limit)))

/-! ## SeasonalAnalyzer (`conversation_service.py`, lines 391-531)

The analyzer holds a fixed table of calendar patterns and matches a
behavior-metric dictionary against the expected changes of the active
patterns.  The caller (`_extract_behavior_metrics`, lines 930-946) only ever
supplies numeric metric values, so `user_behavior` is embedded as an
association list `String × ℚ`.  A `datetime` is embedded by its month and
day; `_is_pattern_active` compares `datetime(year, m, d)` values built at
midnight, which within one year is lexicographic comparison of (month, day)
(the current time is modelled as midnight as well). -/

/-- One value of an `expected_changes` table entry: numeric delta, list of
strings, boolean, or plain string (`"flexible"`). -/
inductive ExpectedVal
  | num (q : ℚ)
  | strList (l : List String)
  | boolv (b : Bool)
  | strv (s : String)
deriving Repr, DecidableEq

/-- The `period` of a seasonal pattern: either a ("MM-DD", "MM-DD") tuple or
a `"days_X_to_Y"` day-of-month range. -/
inductive PatternPeriod
  | range (startMonth startDay endMonth endDay : ℕ)
  | daysRange (startDay endDay : ℕ)
deriving Repr, DecidableEq

/-- Lexicographic ≤ on (month, day): `datetime(y, m1, d1) <= datetime(y, m2, d2)`. -/
def monthDayLE (m1 d1 m2 d2 : ℕ) : Bool :=
  decide (m1 < m2) || (decide (m1 = m2) && decide (d1 ≤ d2))

/-- Embedding of `SeasonalAnalyzer._initialize_seasonal_patterns`
(lines 399-436), in dict insertion order. -/
def seasonalPatternTable : List (String × PatternPeriod × List (String × ExpectedVal)) :=
  [("navidad", .range 12 15 12 31,
     [("productos_premium", .num 0.3),
      ("frecuencia_compras", .num 0.5),
      ("presupuesto", .num 0.4),
      ("marcas_especiales", .strList ["premium", "importadas"])]),
   ("verano", .range 12 21 3 20,
     [("productos_frescos", .num 0.6),
      ("ubicacion_variabilidad", .num 0.4),
      ("horarios_compra", .strv "flexible"),
      ("supermercados_turisticos", .boolv true)]),
   ("inicio_mes", .daysRange 1 5,
     [("presupuesto", .num 0.2),
      ("compras_volumen", .num 0.3),
      ("productos_durables", .num 0.4)]),
   ("fin_mes", .daysRange 25 31,
     [("presupuesto", .num (-0.3)),
      ("marcas_economicas", .num 0.5),
      ("productos_basicos", .num 0.4)])]

/-- Embedding of `SeasonalAnalyzer._is_pattern_active` (lines 484-510) at a
current date given by (month, day). -/
def isPatternActive (period : PatternPeriod) (month day : ℕ) : Bool :=
  match period with
  | .range sm sd em ed =>
    -- start_date > end_date: the range wraps the end of the year
    if !monthDayLE sm sd em ed then
      monthDayLE sm sd month day || monthDayLE month day em ed
    else
      monthDayLE sm sd month day && monthDayLE month day em ed
  | .daysRange sd ed => decide (sd ≤ day) && decide (day ≤ ed)

/-- Embedding of `SeasonalAnalyzer._calculate_pattern_match`
(lines 512-531).  For each expected change present in the behavior dict:
numeric expectation ↦ clamped relative similarity; list expectation ↦ a
numeric value is never a member of a list of strings, so 0; boolean
expectation ↦ `bool(actual) == expected`; a string expectation matches no
`isinstance` branch, so no score is appended.  Returns `np.mean` of the
collected scores, or 0 if none. -/
def calcPatternMatch (user_behavior : List (String × ℚ))
    (expected_changes : List (String × ExpectedVal)) : ℚ :=
  let match_scores := expected_changes.filterMap fun ce =>
    match user_behavior.lookup ce.1 with
    | none => none
    | some actual_change =>
      match ce.2 with
      | .num expected => some (pyMax 0 (1 - pyAbs (actual_change - expected) / pyMax (pyAbs expected) 1))
      | .strList _ => some 0
      | .boolv b => some (if decide (actual_change ≠ 0) = b then (1 : ℚ) else 0)
      | .strv _ => none
  if match_scores = [] then 0 else match_scores.sum / match_scores.length

/-- The `explanation` field of the verdict dictionary: a list of pattern
names or a message string. -/
inductive SeasonalExplanation
  | patterns (l : List String)
  | text (s : String)
deriving Repr, DecidableEq

/-- The dictionary returned by `distinguish_seasonal_vs_drift`. -/
structure SeasonalVerdict where
  type : String
  explanation : SeasonalExplanation
  confidence : ℚ
  action : String
deriving Repr, DecidableEq

/-- The `seasonal_explanation_score` computed by
`distinguish_seasonal_vs_drift` (lines 443-459): the maximum
pattern-match score over the patterns active at the current date,
starting from 0. -/
def seasonalExplanationScore (user_behavior : List (String × ℚ))
    (month day : ℕ) : ℚ :=
  (seasonalPatternTable.filter (fun p => isPatternActive p.2.1 month day)).foldl
    (fun acc p => pyMax acc (calcPatternMatch user_behavior p.2.2)) 0

/-- Embedding of `SeasonalAnalyzer.distinguish_seasonal_vs_drift`
(lines 438-482): take the maximum pattern-match score over the active
patterns, then branch at 0.7 and 0.4. -/
def distinguishSeasonalVsDrift (user_behavior : List (String × ℚ))
    (month day : ℕ) : SeasonalVerdict :=
  let active_patterns := seasonalPatternTable.filter
    (fun p => isPatternActive p.2.1 month day)
  let seasonal_explanation_score := seasonalExplanationScore user_behavior month day
  if seasonal_explanation_score > 0.7 then
    ⟨"seasonal_change", .patterns (active_patterns.map (·.1)),
     seasonal_explanation_score, "adjust_expectations_temporarily"⟩
  else if seasonal_explanation_score > 0.4 then
    ⟨"mixed_seasonal_drift",
     .text ("Partially explained by " ++ String.intercalate ", " (active_patterns.map (·.1))),
     seasonal_explanation_score, "monitor_closely"⟩
  else
    ⟨"context_drift", .text "No seasonal pattern explains this change",
     1 - seasonal_explanation_score, "initiate_context_reset"⟩

/-! ## Drift significance (`conversation_service.py`, lines 39-110 and 959-1037) -/

/-- The `ChangeType` enum (lines 39-46). -/
inductive ChangeType
  | locationDrift | preferenceShift | temporalChange
  | satisfactionDecline | seasonalChange | erraticBehavior
deriving Repr, DecidableEq

/-- The `DriftDetectionAlgorithm` enum (lines 49-54). -/
inductive DriftDetectionAlgorithm
  | cusum | pageHinkley | mahalanobis | varianceTest
deriving Repr, DecidableEq

/-- The `DriftDetectionResult` dataclass (lines 99-110). -/
structure DriftDetectionResult where
  has_drift : Bool
  drift_type : Option ChangeType
  confidence : ℚ
  affected_anchors : List String
  detection_algorithm : DriftDetectionAlgorithm
  magnitude : ℚ
  recommended_action : String
deriving Repr, DecidableEq

/-- One entry of the `drift_signals` dict built by `_detect_context_drift`:
`{"severity": _, "confidence": _, "type": _}`. -/
structure DriftSignal where
  severity : ℚ
  confidence : ℚ
  type : String
deriving Repr, DecidableEq

/-- `drift_type_mapping.get(t, ChangeType.PREFERENCE_SHIFT)` (lines 1000-1008). -/
def driftTypeMapping (t : String) : ChangeType :=
  if t = "ubicacion_hogar_drift" then .locationDrift
  else if t = "preferencias_precio_drift" then .preferenceShift
  else if t = "patrones_temporales_drift" then .temporalChange
  else if t = "preference_shift" then .preferenceShift
  else if t = "erratic_behavior" then .erraticBehavior
  else .preferenceShift

/-- `max(set(drift_types), key=drift_types.count)` (line 997): among the
distinct types, one with maximal count.  CPython iterates the set in hash
order, which is unspecified; this embedding iterates distinct types in first
occurrence order and keeps the earlier one on ties.  No claim proved below
depends on the tie-breaking choice. -/
def mostCommonType (drift_types : List String) : String :=
  (drift_types.dedup).foldl
    (fun best t => if drift_types.count t > drift_types.count best then t else best)
    (drift_types.headD "")

/-- Embedding of `ConversationService._evaluate_drift_significance`
(lines 959-1037).  `drift_signals` is the signal dict in insertion order;
`seasonal_result` is the verdict of `distinguish_seasonal_vs_drift`. -/
def evaluateDriftSignificance (drift_signals : List (String × DriftSignal))
    (seasonal_result : SeasonalVerdict) : DriftDetectionResult :=
  -- "Si es cambio estacional, no es drift real"
  if seasonal_result.type = "seasonal_change" then
    { has_drift := false
      drift_type := some .seasonalChange
      confidence := seasonal_result.confidence
      affected_anchors := []
      detection_algorithm := .varianceTest
      magnitude := 0.0
      recommended_action := "adjust_seasonal_expectations" }
  else if drift_signals.length ≥ 2 then
    -- every signal gets weight 1.0
    let total_weight : ℚ := drift_signals.length
    let weighted_confidence : ℚ := (drift_signals.map (fun s => s.2.confidence)).sum
    let affected_anchors := drift_signals.map (·.1)
    let max_severity := (drift_signals.map (fun s => s.2.severity)).foldl pyMax 0.0
    let final_confidence := if total_weight > 0 then weighted_confidence / total_weight else 0.0
    let drift_types := drift_signals.map (fun s => s.2.type)
    let drift_type := driftTypeMapping (mostCommonType drift_types)
    let recommended_action :=
      if final_confidence > 0.8 ∧ max_severity > 0.7 then "immediate_context_reset"
      else if final_confidence > 0.6 then "gradual_adaptation"
      else "increase_monitoring"
    { has_drift := true
      drift_type := some drift_type
      confidence := final_confidence
      affected_anchors := affected_anchors
      detection_algorithm := .cusum
      magnitude := max_severity
      recommended_action := recommended_action }
  else
    { has_drift := false
      drift_type := none
      confidence := 0.0
      affected_anchors := []
      detection_algorithm := .cusum
      magnitude := 0.0
      recommended_action := "continue_normal_operation" }

/-! ## ConversationService construction and `process_user_interaction`
(`conversation_service.py`, lines 545-676)

`__init__` (lines 545-563) assigns only the database plumbing attributes
(`db_session`, `engine`, `SessionLocal`).  The component initialisations —
`drift_detector`, `seasonal_analyzer`, `location_hasher`,
`current_session_cache`, `default_anchors_config` — sit in the indented body
of `close_session` (lines 575-621), so they run only when `close_session` is
called.  The embedding tracks which instance attributes are defined;
dereferencing an undefined attribute raises `AttributeError`.

`process_user_interaction` (lines 623-676) wraps the whole pipeline in
`try/except`; the handler logs the error and re-raises it (`raise`,
line 676), so an exception escaping any step propagates to the caller.
The persistence layer itself is modelled as succeeding when `dbOk = true`
and as raising an operational error when the store is unreachable
(`dbOk = false`); the `async with` mechanics of the session objects are not
modelled. -/

/-- Which instance attributes a `ConversationService` object currently has
defined. -/
structure ServiceAttrs where
  has_db_session : Bool
  has_engine : Bool
  has_SessionLocal : Bool
  has_drift_detector : Bool
  has_seasonal_analyzer : Bool
  has_location_hasher : Bool
  has_current_session_cache : Bool
  has_default_anchors_config : Bool
deriving Repr, DecidableEq

/-- Attributes assigned by `ConversationService.__init__` (lines 545-563):
only the database plumbing, on either constructor branch. -/
def conversationServiceInit : ServiceAttrs :=
  { has_db_session := true
    has_engine := true
    has_SessionLocal := true
    has_drift_detector := false
    has_seasonal_analyzer := false
    has_location_hasher := false
    has_current_session_cache := false
    has_default_anchors_config := false }

/-- Effect of `ConversationService.close_session` (lines 575-621) on the
attribute set: its body assigns the five component attributes. -/
def closeSession (s : ServiceAttrs) : ServiceAttrs :=
  { s with
    has_drift_detector := true
    has_seasonal_analyzer := true
    has_location_hasher := true
    has_current_session_cache := true
    has_default_anchors_config := true }

/-- A Python exception escaping the engine. -/
inductive PyExn
  | attributeError (attr : String)
  | operationalError (msg : String)
deriving Repr, DecidableEq

/-- Embedding of the attribute accesses and error flow of
`ConversationService.process_user_interaction` (lines 623-676).

In source order, the pipeline: queries the store
(`_load_or_create_user_profile`, raising when unreachable), dereferences
`self.default_anchors_config` (lines 715 / 775, on both the existing-user
and new-user paths), dereferences `self.drift_detector` when at least 5
recent interactions exist (line 828; also at line 842 for ≥10), always
dereferences `self.seasonal_analyzer` (line 855), and dereferences
`self.location_hasher` in `_save_interaction` (line 1273).  Any exception is
caught at lines 674-676, logged, and re-raised: the embedding returns it as
`Except.error`. -/
def processUserInteraction (s : ServiceAttrs) (dbOk : Bool)
    (historyLen : ℕ) : Except PyExn Unit :=
  if !dbOk then .error (.operationalError "store_unreachable")
  else if !s.has_default_anchors_config then
    .error (.attributeError "default_anchors_config")
  else if 5 ≤ historyLen && !s.has_drift_detector then
    .error (.attributeError "drift_detector")
  else if !s.has_seasonal_analyzer then
    .error (.attributeError "seasonal_analyzer")
  else if !s.has_location_hasher then
    .error (.attributeError "location_hasher")
  else .ok ()

/-! ## ContextualAnchor model (`app/models/contextual_anchor.py`)

The SQLAlchemy model stores a polymorphic JSON `anchor_value`; Python values
are embedded as the inductive `PyVal` and dictionaries as association
lists.  Mutation of the mapped object is modelled by state passing.
Timestamp bookkeeping (`last_updated`, the ISO timestamps recorded in the
history) carries no information any claim depends on and is omitted from
the state; the history keeps the (value, confidence) payload. -/

/-- A Python JSON-ish value as stored in `anchor_value`. -/
inductive PyVal
  | none
  | num (q : ℚ)
  | str (s : String)
  | boolean (b : Bool)
  | listv (l : List PyVal)
  | dictv (l : List (String × PyVal))

/-- Python truthiness, as used by `if not self.anchor_value` (line 183). -/
def PyVal.truthy : PyVal → Bool
  | .none => false
  | .num q => decide (q ≠ 0)
  | .str s => decide (s ≠ "")
  | .boolean b => b
  | .listv l => !l.isEmpty
  | .dictv l => !l.isEmpty

/-- Mutable state of one `ContextualAnchor` row (model fields that the
embedded methods read or write). -/
structure AnchorState where
  anchor_value : PyVal
  confidence_score : ℚ
  stability_threshold : ℚ
  weight : ℚ
  decay_rate : ℚ
  learning_rate : ℚ
  update_count : ℕ
  is_stable : Bool
  historical_values : List (PyVal × ℚ)

/-- `l[-n:]` on a Python list. -/
def listLastN {α : Type} (n : ℕ) (l : List α) : List α :=
  l.drop (l.length - n)

/-- The dict-blending loop of `update_value` (lines 191-205):
`for key in set(list(new.keys()) + list(old.keys()))`, numeric values on
both sides are interpolated with `alpha`, any other pair takes the new
value, and one-sided keys keep whichever value exists.  The CPython set
iteration order is unspecified; the embedding iterates keys in first
occurrence order of `new.keys() + old.keys()` (the resulting key-value
association does not depend on that order). -/
def blendDicts (nd od : List (String × PyVal)) (alpha : ℚ) :
    List (String × PyVal) :=
  ((nd.map (·.1) ++ od.map (·.1)).dedup).map fun k =>
    match nd.lookup k, od.lookup k with
    | some (.num nq), some (.num oq) => (k, PyVal.num ((1 - alpha) * oq + alpha * nq))
    | some nv, some _ => (k, nv)
    | some nv, Option.none => (k, nv)
    | Option.none, some ov => (k, ov)
    | Option.none, Option.none => (k, PyVal.none)

/-- The trailing metadata block of `update_value` (lines 219-228): bump
`update_count`, set `is_stable` when
`confidence_score >= stability_threshold and update_count >= 5`, and append
to the bounded history (`_add_to_history`, lines 348-361, keeps the last 49
entries before appending). -/
def finishAnchorUpdate (a : AnchorState) (new_value : PyVal) : AnchorState :=
  let count := a.update_count + 1
  let stable :=
    if a.confidence_score ≥ a.stability_threshold ∧ count ≥ 5 then true
    else a.is_stable
  { a with
    update_count := count
    is_stable := stable
    historical_values :=
      listLastN 49 a.historical_values ++ [(new_value, a.confidence_score)] }

/-- Embedding of `ContextualAnchor.update_value` (lines 175-228).  First
write (falsy `anchor_value`): set the value and `confidence = min(0.3 +
boost, 1)`.  Later writes: blend with `alpha = learning_rate * (1 + boost)`
(dict-by-key, numeric interpolation, or outright replacement) and raise
confidence by `learning_rate * 0.1 + boost`, clamped at 1. -/
def updateValue (a : AnchorState) (new_value : PyVal)
    (confidence_boost : ℚ := 0.0) : AnchorState :=
  if !a.anchor_value.truthy then
    finishAnchorUpdate
      { a with
        anchor_value := new_value
        confidence_score := pyMin (0.3 + confidence_boost) 1.0 }
      new_value
  else
    let alpha := a.learning_rate * (1.0 + confidence_boost)
    let updated_value : PyVal :=
      match new_value, a.anchor_value with
      | .dictv nd, .dictv od => .dictv (blendDicts nd od alpha)
      | .num nq, .num oq => .num ((1 - alpha) * oq + alpha * nq)
      | nv, _ => nv
    let confidence_increase := a.learning_rate * 0.1 + confidence_boost
    finishAnchorUpdate
      { a with
        anchor_value := updated_value
        confidence_score := pyMin (a.confidence_score + confidence_increase) 1.0 }
      new_value

/-- Embedding of `ContextualAnchor.apply_temporal_decay` (lines 230-246)
with an explicit `days_since_update`: multiply the confidence by
`decay_rate ** days` and clear `is_stable` when the confidence falls below
half the stability threshold. -/
def applyTemporalDecay (a : AnchorState) (days_since_update : ℕ) : AnchorState :=
  if 0 < days_since_update then
    let decay_factor := a.decay_rate ^ days_since_update
    let conf := a.confidence_score * decay_factor
    { a with
      confidence_score := conf
      is_stable :=
        if conf < a.stability_threshold * 0.5 then false else a.is_stable }
  else a

/-- One call in a sequence of anchor mutations. -/
inductive AnchorOp
  | update (v : PyVal) (boost : ℚ)
  | decay (days : ℕ)

/-- Run a sequence of `update_value` / `apply_temporal_decay` calls. -/
def applyAnchorOps (a : AnchorState) (ops : List AnchorOp) : AnchorState :=
  ops.foldl
    (fun st op =>
      match op with
      | .update v boost => updateValue st v boost
      | .decay days => applyTemporalDecay st days)
    a

/-! ## WeightedMovingAverage (`conversation_service.py`, lines 113-166)

Values and times are rationals; timestamps are carried in hours, so the
`(now - timestamp).total_seconds() / 3600` of the source is `now -
timestamp`.  The age weight applies `math.exp`, so it lives in `ℝ`.
`update` mutates `self.data_points`; the embedding threads the state and
returns the smoothed value alongside. -/

/-- One element of `self.data_points`: the dict
`{'value': _, 'timestamp': _, 'age_weight': _}` appended by `update`
(lines 136-140). -/
structure WMAPoint where
  value : ℚ
  timestamp : ℚ
  age_weight : ℝ

/-- State of a `WeightedMovingAverage` instance. -/
structure WMAState where
  window_size : ℕ
  alpha : ℝ
  data_points : List WMAPoint

/-- Embedding of `_calculate_weights` (lines 124-130): the exponential
position weights `alpha * (1-alpha)**i` for `i < window_size`, reversed so
that the most recent position carries the largest weight. -/
noncomputable def calculateWeights (window_size : ℕ) (alpha : ℝ) : List ℝ :=
  ((List.range window_size).map fun i => alpha * (1 - alpha) ^ i).reverse

/-- Embedding of `_calculate_age_weight` (lines 144-150) with the wall
clock passed explicitly: `exp(-age_hours / 168)` where
`age_hours = now - timestamp`. -/
noncomputable def calculateAgeWeight (now timestamp : ℚ) : ℝ :=
  Real.exp (-(((now - timestamp : ℚ)) : ℝ) / 168)

/-- Embedding of `_calculate_weighted_average` (lines 152-166): pair each
buffered point with its position weight (`if i < len(self.weights)` — the
`zip` truncation), combine with the age weight *stored in the buffer*, and
return the weight-normalised sum (0 on an empty buffer or vanishing total
weight). -/
noncomputable def calculateWeightedAverage (s : WMAState) : ℝ :=
  if s.data_points.isEmpty then 0.0
  else
    let pairs := s.data_points.zip (calculateWeights s.window_size s.alpha)
    let weighted_sum := (pairs.map fun pw => (pw.1.value : ℝ) * (pw.2 * pw.1.age_weight)).sum
    let total_weight := (pairs.map fun pw => pw.2 * pw.1.age_weight).sum
    if total_weight > 0 then weighted_sum / total_weight else 0.0

/-- Embedding of `WeightedMovingAverage.update` (lines 132-142): compute
the age weight once, against the wall clock `now` at insertion time, append
the triple to the ring buffer (the `deque(maxlen=window_size)` evicts the
oldest entry when full), and return the new weighted average. -/
noncomputable def wmaUpdate (s : WMAState) (new_value timestamp now : ℚ) :
    WMAState × ℝ :=
  let point : WMAPoint := ⟨new_value, timestamp, calculateAgeWeight now timestamp⟩
  let points :=
    if s.window_size ≤ s.data_points.length then s.data_points.tail ++ [point]
    else s.data_points ++ [point]
  let s' := { s with data_points := points }
  (s', calculateWeightedAverage s')

/-! ## DriftDetector: multivariate outliers (`conversation_service.py`,
lines 309-388)

The haversine distance uses transcendental functions, so features are real
vectors.  `np.linalg.inv` raises `LinAlgError` exactly when the covariance
matrix is singular; the `try/except` of lines 341-358 is embedded as a
determinant-zero test. -/

/-- A `datetime` as consumed by the engine: calendar fields plus the
derived `weekday()`. -/
structure PyDateTime where
  year : ℕ
  month : ℕ
  day : ℕ
  hour : ℕ
  weekday : ℕ
deriving Repr, DecidableEq

/-- The `UserInteraction` dataclass (lines 79-96). -/
structure UserInteraction where
  interaction_id : String
  user_id : String
  timestamp : PyDateTime
  productos : List String
  ubicacion : ℚ × ℚ
  decision_tomada : String
  supermercados_visitados : List String
  satisfaccion : ℚ
  context_data : List (String × String)
deriving Repr, DecidableEq

/-- `math.radians`. -/
noncomputable def radians (x : ℝ) : ℝ := x * Real.pi / 180

/-- `math.atan2 y x`, i.e. the argument of the complex number `x + y·i`. -/
noncomputable def atan2 (y x : ℝ) : ℝ := Complex.arg ⟨x, y⟩

/-- Embedding of `DriftDetector._calculate_distance` (lines 360-383): the
haversine great-circle distance in km. -/
noncomputable def calculateDistance (point1 point2 : ℚ × ℚ) : ℝ :=
  let R : ℝ := 6371.0
  let lat1_rad := radians (point1.1 : ℝ)
  let lon1_rad := radians (point1.2 : ℝ)
  let lat2_rad := radians (point2.1 : ℝ)
  let lon2_rad := radians (point2.2 : ℝ)
  let dlat := lat2_rad - lat1_rad
  let dlon := lon2_rad - lon1_rad
  let a := Real.sin (dlat / 2) ^ 2 +
    Real.cos lat1_rad * Real.cos lat2_rad * Real.sin (dlon / 2) ^ 2
  let c := 2 * atan2 (Real.sqrt a) (Real.sqrt (1 - a))
  R * c

/-- Embedding of `DriftDetector._encode_decision_type` (lines 385-388). -/
def encodeDecisionType (decision : String) : ℚ :=
  if decision = "ahorro" then 1.0
  else if decision = "equilibrio" then 2.0
  else if decision = "conveniencia" then 3.0
  else 2.0

/-- The 6-feature vector of `extract_features` (lines 319-328):
distance-from-home, satisfaction, product count, hour, weekday, decision
ordinal. -/
noncomputable def extractFeatures (home_location : ℚ × ℚ)
    (interaction : UserInteraction) : Fin 6 → ℝ :=
  ![calculateDistance home_location interaction.ubicacion,
    (interaction.satisfaccion : ℝ),
    (interaction.productos.length : ℝ),
    (interaction.timestamp.hour : ℝ),
    (interaction.timestamp.weekday : ℝ),
    (encodeDecisionType interaction.decision_tomada : ℝ)]

/-- `np.mean(matrix, axis=0)`: the columnwise mean of the feature rows. -/
noncomputable def meanVector (rows : List (Fin 6 → ℝ)) : Fin 6 → ℝ :=
  fun j => (rows.map fun r => r j).sum / (rows.length : ℝ)

/-- `np.cov(matrix.T)` with the numpy default `ddof=1`: sample covariance
of the feature rows. -/
noncomputable def covMatrix (rows : List (Fin 6 → ℝ)) :
    Matrix (Fin 6) (Fin 6) ℝ :=
  Matrix.of fun j k =>
    (rows.map fun r => (r j - meanVector rows j) * (r k - meanVector rows k)).sum /
      ((rows.length : ℝ) - 1)

/-- Return value of `detect_multivariate_outliers`. -/
inductive OutlierOutcome
  /-- `{"is_outlier": False, "reason": "insufficient_data"}` (line 316) -/
  | insufficientData
  /-- `{"is_outlier": False, "reason": "singular_matrix"}` (line 358) -/
  | singularMatrix
  /-- the full result dictionary of lines 349-354 -/
  | tested (is_outlier : Bool) (distance threshold confidence : ℝ)

/-- Embedding of `DriftDetector.detect_multivariate_outliers`
(lines 309-358): guard on fewer than 10 historical interactions, build the
feature matrix from the last 50 (`historical_interactions[-50:]`), and
either report the Mahalanobis-distance test against the fixed χ² threshold
12.59 or — when the covariance matrix is singular and `np.linalg.inv`
raises — the caught-`LinAlgError` dictionary. -/
noncomputable def detectMultivariateOutliers (new_interaction : UserInteraction)
    (historical_interactions : List UserInteraction)
    (home_location : ℚ × ℚ) : OutlierOutcome :=
  if historical_interactions.length < 10 then .insufficientData
  else
    let historical_features :=
      (listLastN 50 historical_interactions).map (extractFeatures home_location)
    let mean_vector := meanVector historical_features
    let cov_matrix := covMatrix historical_features
    let new_features := extractFeatures home_location new_interaction
    if cov_matrix.det = 0 then .singularMatrix
    else
      let diff : Fin 6 → ℝ := fun j => new_features j - mean_vector j
      let mahalanobis_distance :=
        Real.sqrt (Finset.univ.sum fun j => diff j * (cov_matrix⁻¹.mulVec diff j))
      let threshold : ℝ := 12.59
      .tested (if mahalanobis_distance > threshold then true else false)
        mahalanobis_distance threshold (min 1.0 (mahalanobis_distance / threshold))

/-! ## Theorems -/

/-- C10: For every (lat, lng) input, `_generate_region_code` returns one of
RM_CENTRO, VAL_CENTRO, or OTHER and never returns "RM_ORIENTE": the
RM_ORIENTE bounding box is a subset of the RM_CENTRO box, which is tested
first, so the RM_ORIENTE branch is unreachable. -/
theorem c10_rm_oriente_unreachable (lat lng : ℚ) :
    (generateRegionCode lat lng = "RM_CENTRO" ∨
     generateRegionCode lat lng = "VAL_CENTRO" ∨
     generateRegionCode lat lng = "OTHER") ∧
    generateRegionCode lat lng ≠ "RM_ORIENTE" := by
  unfold generateRegionCode
  split_ifs with h1 h2 h3
  · exact ⟨Or.inl rfl, by decide⟩
  · -- the RM_ORIENTE branch: its box is contained in the RM_CENTRO box
    obtain ⟨ha, hb, hc, hd⟩ := h2
    exact absurd ⟨by linarith, hb, by linarith, hd⟩ h1
  · exact ⟨Or.inr (Or.inl rfl), by decide⟩
  · exact ⟨Or.inr (Or.inr rfl), by decide⟩

/-- C2: from a fresh `DriftDetector`, `cusum_test` on history
`["ahorro"]*5` (mean 1) with sensitivity 0.5 and new decision
"conveniencia" (encoded 3) gives deviation 2 and accumulates
`cusum_positive = max(0, 0+2-0.25) = 1.75` (below the limit 3.0, no
change); an identical second call on the resulting state accumulates
`cusum_positive = max(0, 1.75+2-0.25) = 3.5 > 3.0` and reports
`change_detected = True` with confidence `min(1, 3.5/3) = 1`: the
accumulators persist on the instance across calls. -/
theorem c2_cusum_cross_call_accumulation :
    (cusumTest driftDetectorInit (List.replicate 5 "ahorro") "conveniencia" 0.5).1.cusum_positive = 7/4 ∧
    (cusumTest driftDetectorInit (List.replicate 5 "ahorro") "conveniencia" 0.5).1.cusum_negative = 0 ∧
    (cusumTest driftDetectorInit (List.replicate 5 "ahorro") "conveniencia" 0.5).2 =
      .tested false (7/4) "increase" (7/12) ∧
    (cusumTest (cusumTest driftDetectorInit (List.replicate 5 "ahorro") "conveniencia" 0.5).1
        (List.replicate 5 "ahorro") "conveniencia" 0.5).1.cusum_positive = 7/2 ∧
    (cusumTest (cusumTest driftDetectorInit (List.replicate 5 "ahorro") "conveniencia" 0.5).1
        (List.replicate 5 "ahorro") "conveniencia" 0.5).2 =
      .tested true (7/2) "increase" 1 := by
  have henc : decisionEncoding "conveniencia" = 3 := rfl
  have hmap : List.map decisionEncoding (List.replicate 5 "ahorro") =
      List.replicate 5 1 := rfl
  have h1 : cusumTest driftDetectorInit (List.replicate 5 "ahorro") "conveniencia" 0.5 =
      (⟨7/4, 0, 0, 0, 0⟩, .tested false (7/4) "increase" (7/12)) := by
    simp only [cusumTest, hmap, henc, List.sum_replicate, List.length_replicate,
      driftDetectorInit]
    norm_num [pyMax, pyMin]
  have h2 : cusumTest (⟨7/4, 0, 0, 0, 0⟩ : DriftDetectorState)
      (List.replicate 5 "ahorro") "conveniencia" 0.5 =
      (⟨7/2, 0, 0, 0, 0⟩, .tested true (7/2) "increase" 1) := by
    simp only [cusumTest, hmap, henc, List.sum_replicate, List.length_replicate]
    norm_num [pyMax, pyMin]
  rw [h1]; dsimp only; rw [h2]
  exact ⟨rfl, rfl, rfl, rfl, rfl⟩

/-- C5: whenever the seasonal classification is not `seasonal_change` and
fewer than two drift signals were collected, `_evaluate_drift_significance`
returns a result with `has_drift = False`. -/
theorem c5_one_signal_is_not_drift
    (drift_signals : List (String × DriftSignal)) (seasonal : SeasonalVerdict)
    (hseason : seasonal.type ≠ "seasonal_change")
    (hcount : drift_signals.length < 2) :
    (evaluateDriftSignificance drift_signals seasonal).has_drift = false := by
  unfold evaluateDriftSignificance
  rw [if_neg hseason, if_neg (by omega)]

/-- Witness for C5: a lone anchor-deviation signal under a
`context_drift` seasonal verdict yields `has_drift = False`. -/
theorem c5_one_signal_is_not_drift_witness :
    (SeasonalVerdict.mk "context_drift"
        (.text "No seasonal pattern explains this change") 1
        "initiate_context_reset").type ≠ "seasonal_change" ∧
    ([("ubicacion_hogar", DriftSignal.mk 0.9 1 "ubicacion_hogar_drift")]).length < 2 ∧
    (evaluateDriftSignificance
        [("ubicacion_hogar", DriftSignal.mk 0.9 1 "ubicacion_hogar_drift")]
        (SeasonalVerdict.mk "context_drift"
          (.text "No seasonal pattern explains this change") 1
          "initiate_context_reset")).has_drift = false :=
  ⟨by decide, by decide,
   c5_one_signal_is_not_drift _ _ (by decide) (by decide)⟩

/-- C4: a freshly constructed `ConversationService` lacks the
`drift_detector`, `seasonal_analyzer`, `location_hasher`,
`current_session_cache` and `default_anchors_config` attributes (their
assignments sit inside the body of `close_session`), so
`process_user_interaction` — which dereferences
`self.default_anchors_config` and, with enough history,
`self.drift_detector` — raises an `AttributeError` instead of producing a
response, unless `close_session` ran first. -/
theorem c4_fresh_service_attribute_error :
    (conversationServiceInit.has_drift_detector = false ∧
     conversationServiceInit.has_seasonal_analyzer = false ∧
     conversationServiceInit.has_location_hasher = false ∧
     conversationServiceInit.has_current_session_cache = false ∧
     conversationServiceInit.has_default_anchors_config = false) ∧
    (∀ historyLen : ℕ,
      processUserInteraction conversationServiceInit true historyLen =
        .error (.attributeError "default_anchors_config")) ∧
    (∀ historyLen : ℕ,
      processUserInteraction (closeSession conversationServiceInit) true historyLen =
        .ok ()) := by
  refine ⟨⟨rfl, rfl, rfl, rfl, rfl⟩, fun _ => rfl, fun historyLen => ?_⟩
  simp [processUserInteraction, closeSession, conversationServiceInit]

/-- Counterexample to C1 as stated: with an unreachable store — one of the
claim's own examples of an internal failure — `process_user_interaction`
propagates the exception to the caller (its `except` handler logs and
re-raises), instead of degrading to a neutral response with a reason
field. -/
theorem c1_failure_propagates_counterexample :
    processUserInteraction (closeSession conversationServiceInit) false 0 =
      .error (.operationalError "store_unreachable") := rfl

/-- C1 (amended): failures inside the individual detector subroutines
degrade to neutral results carrying a reason (empty history in the CUSUM
test, fewer than 10 interactions in the outlier test), but any exception
reaching `process_user_interaction`'s top-level handler — e.g. an
unreachable store — is logged and re-raised to the caller. -/
theorem c1_amended_fail_open_only_inside_detectors :
    (∀ (s : ServiceAttrs) (historyLen : ℕ),
      processUserInteraction s false historyLen =
        .error (.operationalError "store_unreachable")) ∧
    (∀ (st : DriftDetectorState) (nd : String) (sens : ℚ),
      (cusumTest st [] nd sens).2 = .noHistoricalData) ∧
    (∀ (i : UserInteraction) (home : ℚ × ℚ),
      detectMultivariateOutliers i [] home = .insufficientData) := by
  refine ⟨fun s h => rfl, fun st nd sens => rfl, fun i home => ?_⟩
  simp [detectMultivariateOutliers]

/-- Counterexample to C3 as stated: at the 12-20 (only `navidad` active)
date, the behavior `{"productos_premium": 0.61}` has best pattern-match
score exactly 0.69, yet `distinguish_seasonal_vs_drift` classifies it as
`mixed_seasonal_drift` with confidence 0.69 — not as `context_drift` with
confidence 1 − 0.69 — because 0.69 falls in the `> 0.4` branch. -/
theorem c3_counterexample_069_is_mixed :
    seasonalExplanationScore [("productos_premium", 0.61)] 12 20 = 0.69 ∧
    (distinguishSeasonalVsDrift [("productos_premium", 0.61)] 12 20).type =
      "mixed_seasonal_drift" ∧
    (distinguishSeasonalVsDrift [("productos_premium", 0.61)] 12 20).type ≠
      "context_drift" ∧
    (distinguishSeasonalVsDrift [("productos_premium", 0.61)] 12 20).confidence ≠
      1 - 0.69 := by
  have hval : seasonalExplanationScore [("productos_premium", 0.61)] 12 20 =
      pyMax 0 ((pyMax 0 (1 - pyAbs (0.61 - 0.3) / pyMax (pyAbs 0.3) 1) + 0) /
        ((1 : ℕ) : ℚ)) := rfl
  have hscore : seasonalExplanationScore [("productos_premium", 0.61)] 12 20 = 0.69 := by
    rw [hval]; norm_num [pyMax, pyAbs]
  refine ⟨hscore, ?_, ?_, ?_⟩ <;>
    · simp only [distinguishSeasonalVsDrift, hscore]
      norm_num
      try decide

/-- C3 (amended): a best pattern-match score of exactly 0.71 classifies
the change as `seasonal_change`; a best score of exactly 0.69 classifies
it as `mixed_seasonal_drift` with confidence equal to the score
(`context_drift`, with confidence 1 − score, only arises below the 0.4
cut). -/
theorem c3_amended_boundary_at_07 (user_behavior : List (String × ℚ))
    (month day : ℕ) :
    (seasonalExplanationScore user_behavior month day = 0.71 →
      (distinguishSeasonalVsDrift user_behavior month day).type =
        "seasonal_change") ∧
    (seasonalExplanationScore user_behavior month day = 0.69 →
      (distinguishSeasonalVsDrift user_behavior month day).type =
        "mixed_seasonal_drift" ∧
      (distinguishSeasonalVsDrift user_behavior month day).confidence = 0.69) := by
  constructor
  · intro h
    simp only [distinguishSeasonalVsDrift, h]
    norm_num
  · intro h
    simp only [distinguishSeasonalVsDrift, h]
    norm_num

/-- Witness for C3 (amended): concrete behaviors reaching scores exactly
0.71 and 0.69 on the `navidad` pattern at date 12-20. -/
theorem c3_amended_boundary_at_07_witness :
    (distinguishSeasonalVsDrift [("productos_premium", 0.59)] 12 20).type =
      "seasonal_change" ∧
    ((distinguishSeasonalVsDrift [("productos_premium", 0.61)] 12 20).type =
      "mixed_seasonal_drift" ∧
     (distinguishSeasonalVsDrift [("productos_premium", 0.61)] 12 20).confidence
       = 0.69) :=
  ⟨(c3_amended_boundary_at_07 [("productos_premium", 0.59)] 12 20).1 (by
      have hval : seasonalExplanationScore [("productos_premium", 0.59)] 12 20 =
          pyMax 0 ((pyMax 0 (1 - pyAbs (0.59 - 0.3) / pyMax (pyAbs 0.3) 1) + 0) /
            ((1 : ℕ) : ℚ)) := rfl
      rw [hval]; norm_num [pyMax, pyAbs]),
   (c3_amended_boundary_at_07 [("productos_premium", 0.61)] 12 20).2 (by
      have hval : seasonalExplanationScore [("productos_premium", 0.61)] 12 20 =
          pyMax 0 ((pyMax 0 (1 - pyAbs (0.61 - 0.3) / pyMax (pyAbs 0.3) 1) + 0) /
            ((1 : ℕ) : ℚ)) := rfl
      rw [hval]; norm_num [pyMax, pyAbs])⟩

/-! ### Anchor confidence invariant (C8) -/

/-- The metadata block does not change the confidence. -/
theorem finishAnchorUpdate_confidence (a : AnchorState) (v : PyVal) :
    (finishAnchorUpdate a v).confidence_score = a.confidence_score := rfl

/-- `update_value` writes the confidence of the branch taken. -/
theorem updateValue_confidence (a : AnchorState) (v : PyVal) (b : ℚ) :
    (updateValue a v b).confidence_score =
      if !a.anchor_value.truthy then pyMin (0.3 + b) 1.0
      else pyMin (a.confidence_score + (a.learning_rate * 0.1 + b)) 1.0 := by
  unfold updateValue
  split <;> rfl

/-- `pyMin · 1.0` of a nonnegative number stays in [0, 1]. -/
theorem pyMin_one_mem {x : ℚ} (hx : 0 ≤ x) :
    0 ≤ pyMin x 1.0 ∧ pyMin x 1.0 ≤ 1 := by
  unfold pyMin
  split_ifs <;> constructor <;> linarith

/-- One `update_value` call keeps the confidence in [0, 1]. -/
theorem updateValue_confidence_mem (a : AnchorState) (v : PyVal) (b : ℚ)
    (hc : 0 ≤ a.confidence_score) (hb : 0 ≤ b) (hlr : 0 ≤ a.learning_rate) :
    0 ≤ (updateValue a v b).confidence_score ∧
      (updateValue a v b).confidence_score ≤ 1 := by
  rw [updateValue_confidence]
  have hinc : 0 ≤ a.learning_rate * 0.1 + b := by
    have := mul_nonneg hlr (by norm_num : (0 : ℚ) ≤ 0.1)
    linarith
  split_ifs
  · exact pyMin_one_mem (by linarith)
  · exact pyMin_one_mem (by linarith)

/-- One `apply_temporal_decay` call keeps the confidence in [0, 1]. -/
theorem applyTemporalDecay_confidence_mem (a : AnchorState) (d : ℕ)
    (hc0 : 0 ≤ a.confidence_score) (hc1 : a.confidence_score ≤ 1)
    (hd0 : 0 ≤ a.decay_rate) (hd1 : a.decay_rate ≤ 1) :
    0 ≤ (applyTemporalDecay a d).confidence_score ∧
      (applyTemporalDecay a d).confidence_score ≤ 1 := by
  unfold applyTemporalDecay
  split_ifs
  · dsimp only
    refine ⟨mul_nonneg hc0 (pow_nonneg hd0 d), ?_⟩
    calc a.confidence_score * a.decay_rate ^ d
        ≤ 1 * 1 :=
          mul_le_mul hc1 (pow_le_one₀ hd0 hd1) (pow_nonneg hd0 d) zero_le_one
      _ = 1 := one_mul 1
  · exact ⟨hc0, hc1⟩

/-- `update_value` does not touch the rate attributes. -/
theorem updateValue_rates (a : AnchorState) (v : PyVal) (b : ℚ) :
    (updateValue a v b).learning_rate = a.learning_rate ∧
      (updateValue a v b).decay_rate = a.decay_rate := by
  unfold updateValue finishAnchorUpdate
  split <;> exact ⟨rfl, rfl⟩

/-- `apply_temporal_decay` does not touch the rate attributes. -/
theorem applyTemporalDecay_rates (a : AnchorState) (d : ℕ) :
    (applyTemporalDecay a d).learning_rate = a.learning_rate ∧
      (applyTemporalDecay a d).decay_rate = a.decay_rate := by
  unfold applyTemporalDecay
  split <;> exact ⟨rfl, rfl⟩

/-- C8: for every `ContextualAnchor` whose `confidence_score` starts in
[0,1] (with `learning_rate` and `decay_rate` in [0,1]), any sequence of
`update_value` calls with confidence boosts in [0, 0.2] interleaved with
`apply_temporal_decay` calls leaves `confidence_score` in [0, 1]. -/
theorem c8_confidence_clamped (ops : List AnchorOp) (a : AnchorState)
    (hc0 : 0 ≤ a.confidence_score) (hc1 : a.confidence_score ≤ 1)
    (hlr0 : 0 ≤ a.learning_rate) (hlr1 : a.learning_rate ≤ 1)
    (hdr0 : 0 ≤ a.decay_rate) (hdr1 : a.decay_rate ≤ 1)
    (hops : ∀ op ∈ ops, ∀ v b, op = AnchorOp.update v b → 0 ≤ b ∧ b ≤ 0.2) :
    0 ≤ (applyAnchorOps a ops).confidence_score ∧
      (applyAnchorOps a ops).confidence_score ≤ 1 := by
  induction ops generalizing a with
  | nil => exact ⟨hc0, hc1⟩
  | cons op rest ih =>
    have hrest : ∀ op ∈ rest, ∀ v b, op = AnchorOp.update v b → 0 ≤ b ∧ b ≤ 0.2 :=
      fun o ho => hops o (List.mem_cons_of_mem _ ho)
    cases op with
    | update v b =>
      obtain ⟨hb0, _⟩ := hops _ (List.mem_cons_self _ _) v b rfl
      have hm := updateValue_confidence_mem a v b hc0 hb0 hlr0
      have hp := updateValue_rates a v b
      exact ih (updateValue a v b) hm.1 hm.2
        (by rw [hp.1]; exact hlr0) (by rw [hp.1]; exact hlr1)
        (by rw [hp.2]; exact hdr0) (by rw [hp.2]; exact hdr1) hrest
    | decay d =>
      have hm := applyTemporalDecay_confidence_mem a d hc0 hc1 hdr0 hdr1
      have hp := applyTemporalDecay_rates a d
      exact ih (applyTemporalDecay a d) hm.1 hm.2
        (by rw [hp.1]; exact hlr0) (by rw [hp.1]; exact hlr1)
        (by rw [hp.2]; exact hdr0) (by rw [hp.2]; exact hdr1) hrest

/-- Witness for C8: a fresh anchor (`confidence = 0`, learning rate 0.1,
decay rate 0.95) run through two updates and one decay stays in [0, 1]. -/
theorem c8_confidence_clamped_witness :
    0 ≤ (applyAnchorOps
        ⟨PyVal.none, 0, 0.7, 1.0, 0.95, 0.1, 0, false, []⟩
        [.update (.num 2) 0.1, .decay 3, .update (.num 5) 0]).confidence_score ∧
    (applyAnchorOps
        ⟨PyVal.none, 0, 0.7, 1.0, 0.95, 0.1, 0, false, []⟩
        [.update (.num 2) 0.1, .decay 3, .update (.num 5) 0]).confidence_score ≤ 1 :=
  c8_confidence_clamped _ _ (by norm_num) (by norm_num) (by norm_num)
    (by norm_num) (by norm_num) (by norm_num)
    (by
      intro op hop v b heq
      simp only [List.mem_cons, List.not_mem_nil, or_false] at hop
      rcases hop with rfl | rfl | rfl
      · cases heq; constructor <;> norm_num
      · exact AnchorOp.noConfusion heq
      · cases heq; constructor <;> norm_num)

/-! ### Outlier-detector guards (C9) -/

/-- The covariance matrix of identical rows vanishes: every feature equals
the columnwise mean, so every centred product is zero. -/
theorem covMatrix_replicate (n : ℕ) (hn : (n : ℝ) ≠ 0) (r : Fin 6 → ℝ) :
    covMatrix (List.replicate n r) = 0 := by
  unfold covMatrix meanVector
  ext j k
  have hmean : ∀ i : Fin 6, (↑n * r i) / ↑n = r i := fun i =>
    mul_div_cancel_left₀ _ hn
  simp [List.map_replicate, List.sum_replicate, nsmul_eq_mul, hmean]

/-- C9: `detect_multivariate_outliers` returns the
`{is_outlier: false, reason: "insufficient_data"}` dictionary whenever
fewer than 10 historical interactions are supplied, and returns the
`{is_outlier: false, reason: "singular_matrix"}` dictionary — instead of
raising — whenever the covariance matrix of the historical feature vectors
is singular. -/
theorem c9_insufficient_and_singular_guards :
    (∀ (new_i : UserInteraction) (hist : List UserInteraction) (home : ℚ × ℚ),
        hist.length < 10 →
        detectMultivariateOutliers new_i hist home = .insufficientData) ∧
    (∀ (new_i : UserInteraction) (hist : List UserInteraction) (home : ℚ × ℚ),
        10 ≤ hist.length →
        (covMatrix ((listLastN 50 hist).map (extractFeatures home))).det = 0 →
        detectMultivariateOutliers new_i hist home = .singularMatrix) := by
  constructor
  · intro i hist home h
    simp only [detectMultivariateOutliers]
    rw [if_pos h]
  · intro i hist home h hdet
    simp only [detectMultivariateOutliers]
    rw [if_neg (not_lt.mpr h), if_pos hdet]

/-- A concrete interaction used to instantiate the outlier guards. -/
def sampleInteraction : UserInteraction :=
  ⟨"i-0", "u-0", ⟨2024, 1, 1, 10, 0⟩, ["pan"], (0, 0), "equilibrio", [], 3, []⟩

set_option maxRecDepth 4000 in
/-- Witness for C9: an empty history triggers the insufficient-data guard,
and ten identical interactions give a zero (hence singular) covariance
matrix and trigger the singular-matrix guard. -/
theorem c9_insufficient_and_singular_guards_witness :
    (([] : List UserInteraction).length < 10 ∧
     detectMultivariateOutliers sampleInteraction [] (0, 0) = .insufficientData) ∧
    (10 ≤ (List.replicate 10 sampleInteraction).length ∧
     detectMultivariateOutliers sampleInteraction
       (List.replicate 10 sampleInteraction) (0, 0) = .singularMatrix) := by
  have h1 : listLastN 50 (List.replicate 10 sampleInteraction) =
      List.replicate 10 sampleInteraction := by
    simp [listLastN]
  have hdet : (covMatrix ((listLastN 50 (List.replicate 10 sampleInteraction)).map
      (extractFeatures (0, 0)))).det = 0 := by
    rw [h1, List.map_replicate,
      covMatrix_replicate 10 (by norm_num : ((10 : ℕ) : ℝ) ≠ 0)]
    simp
  exact ⟨⟨by norm_num,
          c9_insufficient_and_singular_guards.1 _ _ _ (by norm_num)⟩,
         ⟨by simp,
          c9_insufficient_and_singular_guards.2 _ _ _ (by simp) hdet⟩⟩

/-! ### WeightedMovingAverage: frozen age weights (C6) and convexity (C7) -/

/-- The buffer produced by one `update`: evict the oldest entry when the
deque is full, then append the new `(value, timestamp, age_weight)`
triple. -/
theorem wmaUpdate_data_points (s : WMAState) (v t now : ℚ) :
    (wmaUpdate s v t now).1.data_points =
      (if s.window_size ≤ s.data_points.length then s.data_points.tail
       else s.data_points) ++ [⟨v, t, calculateAgeWeight now t⟩] := by
  simp only [wmaUpdate]
  split <;> rfl

/-- `update` does not change the window size. -/
theorem wmaUpdate_window (s : WMAState) (v t now : ℚ) :
    (wmaUpdate s v t now).1.window_size = s.window_size := rfl

/-- C6 (amended): the age weight of a buffered entry is computed once,
against the wall clock at insertion time, and frozen in the buffer: after
inserting `(v1, t1)` at wall-clock `now1` and then running a second
`update` at any later wall-clock `now2` (with room in the deque, so the
entry is not evicted), the stored entry still carries
`exp(-(now1 - t1)/168)` — the right-hand side does not mention `now2`. -/
theorem c6_age_weight_frozen_at_insertion (s : WMAState)
    (v1 t1 now1 v2 t2 now2 : ℚ)
    (h : (wmaUpdate s v1 t1 now1).1.data_points.length < s.window_size) :
    (wmaUpdate (wmaUpdate s v1 t1 now1).1 v2 t2 now2).1.data_points[
        (wmaUpdate s v1 t1 now1).1.data_points.length - 1]? =
      some ⟨v1, t1, calculateAgeWeight now1 t1⟩ := by
  have h1 := wmaUpdate_data_points s v1 t1 now1
  have h2cond : ¬ ((wmaUpdate s v1 t1 now1).1.window_size ≤
      (wmaUpdate s v1 t1 now1).1.data_points.length) := by
    rw [wmaUpdate_window]; omega
  have h2 : (wmaUpdate (wmaUpdate s v1 t1 now1).1 v2 t2 now2).1.data_points =
      (wmaUpdate s v1 t1 now1).1.data_points ++
        [⟨v2, t2, calculateAgeWeight now2 t2⟩] := by
    rw [wmaUpdate_data_points, if_neg h2cond]
  rw [h2, h1]
  simp only [List.length_append, List.length_singleton, Nat.add_sub_cancel]
  rw [List.getElem?_append_left (by simp)]
  exact List.getElem?_concat_length _ _

/-- Witness for C6 (amended): insert `(1, 0)` at wall-clock 0 into an
empty window-20 average, query again at wall-clock 168; the stored entry
still carries `exp(-(0-0)/168)`. -/
theorem c6_age_weight_frozen_at_insertion_witness :
    (wmaUpdate (⟨20, 0.3, []⟩ : WMAState) 1 0 0).1.data_points.length <
      (⟨20, 0.3, []⟩ : WMAState).window_size ∧
    (wmaUpdate (wmaUpdate (⟨20, 0.3, []⟩ : WMAState) 1 0 0).1 1 0 168).1.data_points[
        (wmaUpdate (⟨20, 0.3, []⟩ : WMAState) 1 0 0).1.data_points.length - 1]? =
      some ⟨1, 0, calculateAgeWeight 0 0⟩ :=
  ⟨by simp [wmaUpdate],
   c6_age_weight_frozen_at_insertion _ 1 0 0 1 0 168 (by simp [wmaUpdate])⟩

/-- Counterexample to C6 as stated: insert `(value 1, timestamp 0)` at
wall-clock 0 (age weight `exp 0 = 1` stored), then query at wall-clock 168
by a second `update`.  The buffered entry still carries weight
`exp(-(0-0)/168) = 1`; a recomputation against the query-time wall clock —
what the claim asserts happens at every query — would give
`exp(-(168-0)/168) = exp(-1) ≠ 1`.  The weight is frozen at insertion, not
recomputed. -/
theorem c6_recompute_at_query_counterexample :
    ((wmaUpdate (wmaUpdate (⟨20, 0.3, []⟩ : WMAState) 1 0 0).1 1 0 168).1.data_points.head?.map
        (fun p => p.age_weight)) = some (calculateAgeWeight 0 0) ∧
    calculateAgeWeight 0 0 = 1 ∧
    calculateAgeWeight 168 0 ≠ 1 := by
  refine ⟨?_, ?_, ?_⟩
  · simp [wmaUpdate]
  · simp [calculateAgeWeight]
  · simp only [calculateAgeWeight, Real.exp_eq_one_iff]
    norm_num

/-- The position-weight list has one weight per buffer slot. -/
theorem calculateWeights_length (n : ℕ) (a : ℝ) :
    (calculateWeights n a).length = n := by
  simp [calculateWeights]

/-- With a smoothing factor strictly between 0 and 1, every position
weight `alpha * (1-alpha)^i` is strictly positive. -/
theorem calculateWeights_pos {n : ℕ} {a : ℝ} (h0 : 0 < a) (h1 : a < 1) :
    ∀ w ∈ calculateWeights n a, 0 < w := by
  intro w hw
  simp only [calculateWeights, List.mem_reverse, List.mem_map,
    List.mem_range] at hw
  obtain ⟨i, _, rfl⟩ := hw
  exact mul_pos h0 (pow_pos (by linarith) i)

/-- Σ v·w over a list with nonnegative weights and values in `[m, M]` is
bounded by `m·Σw` and `M·Σw`. -/
theorem weightedSumBounds {α : Type} (l : List α) (v w : α → ℝ) (m M : ℝ)
    (h : ∀ x ∈ l, 0 ≤ w x ∧ m ≤ v x ∧ v x ≤ M) :
    m * (l.map w).sum ≤ (l.map fun x => v x * w x).sum ∧
      (l.map fun x => v x * w x).sum ≤ M * (l.map w).sum := by
  induction l with
  | nil => simp
  | cons x xs ih =>
    obtain ⟨hw, hm, hM⟩ := h x (List.mem_cons_self x xs)
    obtain ⟨ih1, ih2⟩ := ih fun y hy => h y (List.mem_cons_of_mem x hy)
    simp only [List.map_cons, List.sum_cons]
    constructor
    · rw [mul_add]
      exact add_le_add (mul_le_mul_of_nonneg_right hm hw) ih1
    · rw [mul_add]
      exact add_le_add (mul_le_mul_of_nonneg_right hM hw) ih2

/-- Core convexity bound for `_calculate_weighted_average`: on a nonempty
buffer with positive stored age weights and a smoothing factor in (0, 1),
the output lies in any interval containing all buffered values. -/
theorem calculateWeightedAverage_bounds (s : WMAState)
    (ha0 : 0 < s.alpha) (ha1 : s.alpha < 1)
    (hwin : 0 < s.window_size)
    (hne : s.data_points ≠ [])
    (hage : ∀ p ∈ s.data_points, 0 < p.age_weight)
    (m M : ℝ)
    (hb : ∀ p ∈ s.data_points, m ≤ (p.value : ℝ) ∧ (p.value : ℝ) ≤ M) :
    m ≤ calculateWeightedAverage s ∧ calculateWeightedAverage s ≤ M := by
  have hmem : ∀ pw ∈ s.data_points.zip (calculateWeights s.window_size s.alpha),
      0 < pw.2 * pw.1.age_weight ∧ m ≤ (pw.1.value : ℝ) ∧ (pw.1.value : ℝ) ≤ M := by
    rintro ⟨p, w⟩ hpw
    obtain ⟨hp, hw⟩ := List.of_mem_zip hpw
    exact ⟨mul_pos (calculateWeights_pos ha0 ha1 _ hw) (hage _ hp), hb _ hp⟩
  have hzip_ne : s.data_points.zip (calculateWeights s.window_size s.alpha) ≠ [] := by
    have hlen : (s.data_points.zip (calculateWeights s.window_size s.alpha)).length =
        min s.data_points.length (calculateWeights s.window_size s.alpha).length :=
      List.length_zip _ _
    rw [calculateWeights_length] at hlen
    intro hemp
    rw [hemp] at hlen
    have := List.length_pos.mpr hne
    simp at hlen
    omega
  have htot : 0 < ((s.data_points.zip (calculateWeights s.window_size s.alpha)).map
      fun pw => pw.2 * pw.1.age_weight).sum := by
    apply List.sum_pos
    · intro x hx
      obtain ⟨pw, hpw, rfl⟩ := List.mem_map.mp hx
      exact (hmem pw hpw).1
    · simpa using hzip_ne
  have hbounds := weightedSumBounds
    (s.data_points.zip (calculateWeights s.window_size s.alpha))
    (fun pw => (pw.1.value : ℝ)) (fun pw => pw.2 * pw.1.age_weight) m M
    (fun x hx => ⟨le_of_lt (hmem x hx).1, (hmem x hx).2⟩)
  have heq : calculateWeightedAverage s =
      ((s.data_points.zip (calculateWeights s.window_size s.alpha)).map
        fun pw => (pw.1.value : ℝ) * (pw.2 * pw.1.age_weight)).sum /
      ((s.data_points.zip (calculateWeights s.window_size s.alpha)).map
        fun pw => pw.2 * pw.1.age_weight).sum := by
    simp only [calculateWeightedAverage]
    rw [if_neg (by simpa using hne), if_pos htot]
  rw [heq]
  constructor
  · rw [le_div_iff₀ htot]
    exact hbounds.1
  · rw [div_le_iff₀ htot]
    exact hbounds.2

/-- All age weights in the buffer after an `update` are positive: old
entries by assumption, the fresh entry because `exp` is positive. -/
theorem wmaUpdate_age_pos (s : WMAState) (v t now : ℚ)
    (hage : ∀ p ∈ s.data_points, 0 < p.age_weight) :
    ∀ p ∈ (wmaUpdate s v t now).1.data_points, 0 < p.age_weight := by
  intro p hp
  rw [wmaUpdate_data_points] at hp
  rcases List.mem_append.mp hp with hmem | hmem
  · split at hmem
    · exact hage p (List.mem_of_mem_tail hmem)
    · exact hage p hmem
  · rw [List.mem_singleton.mp hmem]
    exact Real.exp_pos _

/-- C7: with the default smoothing factor `alpha = 0.3` (all combined
weights strictly positive), the value returned by `update` lies within
[m, M] for every interval containing all buffered values — in particular
within [min, max] of the buffer — and equals `c` exactly whenever every
buffered value is `c`; an empty buffer yields 0. -/
theorem c7_wma_output_is_convex_combination :
    (∀ (s : WMAState) (v t now : ℚ) (m M : ℝ),
      0 < s.window_size → s.alpha = 0.3 →
      (∀ p ∈ s.data_points, 0 < p.age_weight) →
      (∀ p ∈ (wmaUpdate s v t now).1.data_points,
        m ≤ (p.value : ℝ) ∧ (p.value : ℝ) ≤ M) →
      m ≤ (wmaUpdate s v t now).2 ∧ (wmaUpdate s v t now).2 ≤ M) ∧
    (∀ (s : WMAState) (v t now : ℚ) (c : ℝ),
      0 < s.window_size → s.alpha = 0.3 →
      (∀ p ∈ s.data_points, 0 < p.age_weight) →
      (∀ p ∈ (wmaUpdate s v t now).1.data_points, (p.value : ℝ) = c) →
      (wmaUpdate s v t now).2 = c) ∧
    (∀ (w : ℕ) (a : ℝ), calculateWeightedAverage ⟨w, a, []⟩ = 0) := by
  have key : ∀ (s : WMAState) (v t now : ℚ) (m M : ℝ),
      0 < s.window_size → s.alpha = 0.3 →
      (∀ p ∈ s.data_points, 0 < p.age_weight) →
      (∀ p ∈ (wmaUpdate s v t now).1.data_points,
        m ≤ (p.value : ℝ) ∧ (p.value : ℝ) ≤ M) →
      m ≤ (wmaUpdate s v t now).2 ∧ (wmaUpdate s v t now).2 ≤ M := by
    intro s v t now m M hwin halpha hage hb
    have hsnd : (wmaUpdate s v t now).2 =
        calculateWeightedAverage (wmaUpdate s v t now).1 := rfl
    rw [hsnd]
    refine calculateWeightedAverage_bounds _ ?_ ?_ ?_ ?_ ?_ m M hb
    · show (0 : ℝ) < s.alpha
      rw [halpha]; norm_num
    · show s.alpha < 1
      rw [halpha]; norm_num
    · exact hwin
    · rw [wmaUpdate_data_points]
      simp
    · exact wmaUpdate_age_pos s v t now hage
  refine ⟨key, ?_, ?_⟩
  · intro s v t now c hwin halpha hage hc
    have h := key s v t now c c hwin halpha hage
      (fun p hp => ⟨le_of_eq (hc p hp).symm, le_of_eq (hc p hp)⟩)
    exact le_antisymm h.2 h.1
  · intro w a
    norm_num [calculateWeightedAverage]

/-- Witness for C7: inserting value 2 into an empty window-20 average at
`alpha = 0.3` returns a value within [1, 3], equal to 2 exactly, and the
empty buffer averages to 0. -/
theorem c7_wma_output_is_convex_combination_witness :
    ((1 : ℝ) ≤ (wmaUpdate (⟨20, 0.3, []⟩ : WMAState) 2 0 0).2 ∧
      (wmaUpdate (⟨20, 0.3, []⟩ : WMAState) 2 0 0).2 ≤ 3) ∧
    (wmaUpdate (⟨20, 0.3, []⟩ : WMAState) 2 0 0).2 = 2 ∧
    calculateWeightedAverage (⟨20, 0.3, []⟩ : WMAState) = 0 :=
  ⟨c7_wma_output_is_convex_combination.1 ⟨20, 0.3, []⟩ 2 0 0 1 3
      (by norm_num) rfl (by simp)
      (by
        intro p hp
        simp [wmaUpdate] at hp
        subst hp
        norm_num),
   c7_wma_output_is_convex_combination.2.1 ⟨20, 0.3, []⟩ 2 0 0 2
      (by norm_num) rfl (by simp)
      (by
        intro p hp
        simp [wmaUpdate] at hp
        subst hp
        norm_num),
   c7_wma_output_is_convex_combination.2.2 20 0.3⟩

end CuantoCuesta
